import Mathlib

/-!
Verification of the my-dashboards widget content-acquisition pipeline.

The development shallowly embeds the picker preload scripts
(src/picker-preload.ts, src/credential-picker-preload.ts), the capture
controller (src/renderer/components/widget/WidgetWebview.tsx) and the
persistence IPC handlers (widgets:create, credentialGroups:delete) as
executable Lean functions, and proves or refutes the spec claims about them.

DOM model: a document is represented as a flat list of element records in
document (pre-order) order.  Each element is identified by its path of
child indices from the body element (the body itself has path []).  The
last component of a path is the 0-based index of the element among all
element children of its parent, so that nth-child semantics are the index
plus one.  Tags are stored uppercase, as DOM tagName reports them for HTML
elements.  An absent id is the empty string, as in the DOM where
element.id is "" and JavaScript truthiness tests it.
-/

namespace MyDashboards

/-- ASCII lowercase of a character (JavaScript toLowerCase on the ASCII
range; all tag names and URLs in this development are ASCII).  Defined
structurally so that concrete evaluation reduces in the kernel. -/
def charLower (c : Char) : Char :=
  if 65 ≤ c.toNat ∧ c.toNat ≤ 90 then Char.ofNat (c.toNat + 32) else c

/-- ASCII lowercase of a string. -/
def strLower (s : String) : String := ⟨s.data.map charLower⟩

abbrev DomPath := List Nat

structure ElemRec where
  path : DomPath
  tag : String
  id : String := ""
  classes : List String := []
  attrs : List (String × String) := []
deriving Repr, DecidableEq

abbrev Doc := List ElemRec

/-- Lookup of the element record at a path (document.getElementById style
reference resolution for our path-based identities). -/
def findElem (doc : Doc) (p : DomPath) : Option ElemRec :=
  doc.find? (fun e => decide (e.path = p))

/-- The element children of the element at path `p`, in document order
(mirrors parent.children). -/
def childrenOf (doc : Doc) (p : DomPath) : List ElemRec :=
  doc.filter (fun e => decide (e.path.dropLast = p ∧ e.path ≠ []))

/-- getAttribute: the value of attribute `n`, if present. -/
def getAttr? (e : ElemRec) (n : String) : Option String :=
  (e.attrs.find? (fun a => decide (a.1 = n))).map (fun a => a.2)

/-- CSS attribute-selector test [n="v"]: attribute present with exactly
this value. -/
def hasAttrVal (e : ElemRec) (n v : String) : Bool :=
  decide (getAttr? e n = some v)

/-- CSS.escape.  Modelled as the identity: every id and class name used in
this development is a plain CSS identifier, on which CSS.escape is the
identity.  The escaping rule for special characters is out of scope. -/
def cssEscape (s : String) : String := s

/-- The compound class selector ".c1.c2..." built from the full class
list, as in the generators of both preload scripts. -/
def classSelectorOf (e : ElemRec) : String :=
  String.join (e.classes.map (fun c => "." ++ cssEscape c))

/-- Number of elements in the document matched by the compound class
selector for class list `cs` (document.querySelectorAll(classSelector).length):
an element matches when its class list contains every class of `cs`. -/
def countClassMatches (doc : Doc) (cs : List String) : Nat :=
  (doc.filter (fun e => cs.all (fun c => e.classes.contains c))).length

/-- The same-tag siblings of `e`
(Array.from(parent.children).filter(s =&gt; s.tagName === current.tagName)),
in document order. -/
def sameTagSiblings (doc : Doc) (e : ElemRec) : List ElemRec :=
  (childrenOf doc e.path.dropLast).filter (fun s => decide (s.tag = e.tag))

/-- One segment of the fallback path: the lowercase tag name, with
":nth-child(k)" appended when the element has more than one same-tag
sibling, where k is the 1-based position of the element among its
same-tag siblings (siblings.indexOf(current) + 1) — exactly as the source
computes it. -/
def pathSegment (doc : Doc) (e : ElemRec) : String :=
  let sib := sameTagSiblings doc e
  if sib.length > 1 then
    strLower e.tag ++ ":nth-child(" ++
      toString (sib.findIdx (fun s => decide (s.path = e.path)) + 1) ++ ")"
  else strLower e.tag

/-- The upward walk of the fallback branch, on the reversed path of the
element (head = deepest level).  Mirrors the while loop: process the
current element, prepend its segment, move to parentElement; when an
ancestor has a non-empty id, use "#id" for that level and stop climbing. -/
def pathSegsAux (doc : Doc) : List Nat → List String
  | [] => []
  | i :: rest =>
    match findElem doc ((i :: rest).reverse) with
    | none => []
    | some e =>
      if e.id ≠ "" then ["#" ++ cssEscape e.id]
      else pathSegsAux doc rest ++ [pathSegment doc e]

/-- Shared tail of both generators: unique compound class selector if the
class list is non-empty and document-unique, otherwise the tag/nth-child
path joined with " > ". -/
def classOrPathSelector (doc : Doc) (e : ElemRec) (p : DomPath) : String :=
  if 0 < e.classes.length ∧ countClassMatches doc e.classes = 1 then
    classSelectorOf e
  else
    String.intercalate " > " (pathSegsAux doc p.reverse)

/-- generateSelector of the Region Picker (src/picker-preload.ts):
id first, then document-unique compound class selector, then the
tag/nth-child path. -/
def generateSelector (doc : Doc) (p : DomPath) : String :=
  match findElem doc p with
  | none => ""
  | some e =>
    if e.id ≠ "" then "#" ++ cssEscape e.id
    else classOrPathSelector doc e p

/-- The input[type=...] strategy of the credential picker generator: the
value of the type attribute (or "text" when absent or empty, via the
JavaScript || default), the list of document elements matching
input[type="t"], uniqueness or an :nth-of-type index from the position of
the element in that match list; falls through to class/path when the
element is not in the list. -/
def credInputBranch (doc : Doc) (e : ElemRec) (p : DomPath) : String :=
  if e.tag = "INPUT" then
    let t := match getAttr? e "type" with
      | some v => if v = "" then "text" else v
      | none => "text"
    let sel := "input[type=\"" ++ t ++ "\"]"
    let matchesL := doc.filter (fun x => decide (strLower x.tag = "input") && hasAttrVal x "type" t)
    if matchesL.length = 1 then sel
    else
      let idx := matchesL.findIdx (fun x => decide (x.path = e.path))
      if idx < matchesL.length then
        sel ++ ":nth-of-type(" ++ toString (idx + 1) ++ ")"
      else classOrPathSelector doc e p
  else classOrPathSelector doc e p

/-- generateSelector of the Credential Field Picker
(src/credential-picker-preload.ts): id first, then a unique
tag[name="..."] selector when the element has a name attribute, then the
input[type=...] strategy for INPUT elements, then the shared unique-class
and tag/nth-child path strategies. -/
def credGenerateSelector (doc : Doc) (p : DomPath) : String :=
  match findElem doc p with
  | none => ""
  | some e =>
    if e.id ≠ "" then "#" ++ cssEscape e.id
    else
      match getAttr? e "name" with
      | some n =>
        let sel := strLower e.tag ++ "[name=\"" ++ n ++ "\"]"
        if (doc.filter (fun x =>
             decide (strLower x.tag = strLower e.tag) && hasAttrVal x "name" n)).length = 1 then
          sel
        else credInputBranch doc e p
      | none => credInputBranch doc e p

/-!
Structured CSS selectors and standard CSS matching, for the selector
shapes the Region Picker generator emits: a chain of simple segments
joined by the child combinator " > ", each segment a tag, a
tag:nth-child(k), an #id, or a compound class selector.
-/

inductive SSeg where
  | tagSel (t : String)
  | tagNth (t : String) (k : Nat)
  | idSel (s : String)
  | classesSel (cs : List String)
deriving Repr, DecidableEq

def renderSeg : SSeg → String
  | .tagSel t => t
  | .tagNth t k => t ++ ":nth-child(" ++ toString k ++ ")"
  | .idSel s => "#" ++ s
  | .classesSel cs => String.join (cs.map (fun c => "." ++ c))

def renderChain (sel : List SSeg) : String :=
  String.intercalate " > " (sel.map renderSeg)

/-- The 1-based nth-child position of an element: its index among all
element children of its parent, plus one.  The body (path []) is given
position 0 so that it never matches an :nth-child segment (its parent is
outside the modelled document). -/
def nthChildPos (p : DomPath) : Nat :=
  match p.getLast? with
  | some i => i + 1
  | none => 0

def matchesSeg (e : ElemRec) : SSeg → Bool
  | .tagSel t => decide (strLower e.tag = t)
  | .tagNth t k => decide (strLower e.tag = t) && decide (nthChildPos e.path = k)
  | .idSel s => decide (e.id = s)
  | .classesSel cs => cs.all (fun c => e.classes.contains c)

/-- Child-combinator matching against the reversed chain (innermost
segment first): the element matches the head segment and its parent
matches the rest of the chain; the outermost segment constrains no
ancestor beyond itself. -/
def matchesRevChain (doc : Doc) : DomPath → List SSeg → Bool
  | _, [] => true
  | p, s :: rest =>
    match findElem doc p with
    | none => false
    | some e =>
      matchesSeg e s &&
      (match rest with
       | [] => true
       | _ :: _ =>
         match p with
         | [] => false
         | _ :: _ => matchesRevChain doc p.dropLast rest)

def matchesChain (doc : Doc) (p : DomPath) (sel : List SSeg) : Bool :=
  match sel with
  | [] => false
  | _ => matchesRevChain doc p sel.reverse

/-- document.querySelectorAll: the paths of all matching elements in
document order. -/
def querySelectorAll (doc : Doc) (sel : List SSeg) : List DomPath :=
  (doc.filter (fun e => matchesChain doc e.path sel)).map (fun e => e.path)

/-- document.querySelector: the first matching element in document order,
if any. -/
def querySelectorFirst (doc : Doc) (sel : List SSeg) : Option DomPath :=
  (querySelectorAll doc sel).head?

/-!
Region Picker overlay state (src/picker-preload.ts): the module-level
mutable variables of the preload script, as an explicit state record.
Handlers that can emit the one-shot picker message return the new state
together with the optionally sent Selection.
-/

inductive PickMode where
  | css
  | crop
deriving Repr, DecidableEq

structure CropRegion where
  x : Int
  y : Int
  width : Int
  height : Int
  scrollX : Int
  scrollY : Int
deriving Repr, DecidableEq

inductive SelectionData where
  | cssSel (selectors : List String)
  | cropSel (r : CropRegion)
deriving Repr, DecidableEq

structure PickerSelection where
  url : String
  data : SelectionData
deriving Repr, DecidableEq

structure RegionPickerState where
  mode : Option PickMode
  isCropping : Bool
  cropStartX : Int
  cropStartY : Int
  cropRect : Option (Int × Int × Int × Int)
  statusText : String
  pageUrl : String
deriving Repr, DecidableEq

/-- The cleanup function: mode reset to null and the crop-selection
rectangle removed (listener and overlay teardown has no further state in
this model). -/
def cleanupState (s : RegionPickerState) : RegionPickerState :=
  { s with mode := none, cropRect := none }

/-- handleCropStart: in crop mode, record the anchor point, set the
cropping flag and create the zero-size selection rectangle. -/
def handleCropStart (s : RegionPickerState) (cx cy : Int) : RegionPickerState :=
  if s.mode ≠ some PickMode.crop then s
  else
    { s with isCropping := true, cropStartX := cx, cropStartY := cy,
             cropRect := some (cx, cy, 0, 0) }

/-- handleCropMove: redraw the selection rectangle from the min/max of
anchor and current pointer. -/
def handleCropMove (s : RegionPickerState) (cx cy : Int) : RegionPickerState :=
  if ¬ s.isCropping ∨ s.cropRect = none then s
  else
    { s with cropRect := some (min cx s.cropStartX, min cy s.cropStartY,
                               |cx - s.cropStartX|, |cy - s.cropStartY|) }

/-- handleCropEnd: finalize the rectangle at pointer release (cx, cy) with
page scroll offsets (scrollX, scrollY).  Below the 50px floor the
rectangle is discarded, the status prompts a retry and nothing is sent;
otherwise the CropRegion selection is sent and the UI is cleaned up. -/
def handleCropEnd (s : RegionPickerState) (cx cy scrollX scrollY : Int) :
    RegionPickerState × Option PickerSelection :=
  if ¬ s.isCropping ∨ s.mode ≠ some PickMode.crop then (s, none)
  else
    let s1 := { s with isCropping := false }
    let x := min cx s.cropStartX
    let y := min cy s.cropStartY
    let w := |cx - s.cropStartX|
    let h := |cy - s.cropStartY|
    if w < 50 ∨ h < 50 then
      ({ s1 with cropRect := none,
                 statusText := "Selection too small. Try again." }, none)
    else
      (cleanupState s1,
       some ⟨s.pageUrl, SelectionData.cropSel ⟨x, y, w, h, scrollX, scrollY⟩⟩)

/-!
CSS multi-selection state of the Region Picker: the ordered list of
selected elements (identified by reference; any type with decidable
equality serves as the reference identity) and, in parallel, the
data-index badge of each selection overlay.
-/

structure CssPickState where
  selectedElements : List Nat
  badges : List Nat
deriving Repr, DecidableEq

/-- Renumbering pass after a deselect
(selectedOverlays.forEach((overlay, i) =&gt; set data-index to i + 1)):
overlay i carries badge i + 1. -/
def renumberBadges (bs : List Nat) : List Nat :=
  (List.range bs.length).map (fun i => i + 1)

/-- The contiguous badge sequence 1..n. -/
def contiguousBadges (n : Nat) : List Nat :=
  (List.range n).map (fun i => i + 1)

/-- handleCssClick toggle on a non-toolbar target: if already selected
(indexOf finds it), remove the element and its overlay at that index and
renumber the remaining badges; otherwise append it and create an overlay
whose badge is the new selection count. -/
def handleCssClick (s : CssPickState) (target : Nat) : CssPickState :=
  let i := s.selectedElements.indexOf target
  if i < s.selectedElements.length then
    { selectedElements := s.selectedElements.eraseIdx i,
      badges := renumberBadges (s.badges.eraseIdx i) }
  else
    { selectedElements := s.selectedElements ++ [target],
      badges := s.badges ++ [s.selectedElements.length + 1] }

/-!
Credential Field Picker (src/credential-picker-preload.ts): three ordered
steps over an in-progress LoginFieldSelection.
-/

inductive CredStep where
  | username
  | password
  | submit
deriving Repr, DecidableEq

structure CredentialSelection where
  usernameSelector : String
  passwordSelector : String
  submitSelector : String
deriving Repr, DecidableEq

structure CredPickerState where
  currentStep : CredStep
  selection : CredentialSelection
deriving Repr, DecidableEq

def initialCredState : CredPickerState :=
  ⟨CredStep.username, ⟨"", "", ""⟩⟩

def moveToNextStep : CredStep → CredStep
  | CredStep.username => CredStep.password
  | CredStep.password => CredStep.submit
  | CredStep.submit => CredStep.submit

/-- A click during a step: the selector generated for the resolved element
is recorded into the field of the current step and the picker advances. -/
def credRecordClick (s : CredPickerState) (selector : String) : CredPickerState :=
  let sel := s.selection
  let sel2 :=
    match s.currentStep with
    | CredStep.username => { sel with usernameSelector := selector }
    | CredStep.password => { sel with passwordSelector := selector }
    | CredStep.submit => { sel with submitSelector := selector }
  ⟨moveToNextStep s.currentStep, sel2⟩

/-- Skip This Field: advance without recording. -/
def credSkipStep (s : CredPickerState) : CredPickerState :=
  ⟨moveToNextStep s.currentStep, s.selection⟩

/-- Visibility of the Done button
(hasRequired = usernameSelector &amp;&amp; passwordSelector, JavaScript string
truthiness): both required selectors non-empty. -/
def credDoneVisible (sel : CredentialSelection) : Bool :=
  decide (sel.usernameSelector ≠ "") && decide (sel.passwordSelector ≠ "")

/-- finishSelection: returns without sending when either required selector
is empty; otherwise the LoginFieldSelection is sent as-is. -/
def credFinishSelection (sel : CredentialSelection) : Option CredentialSelection :=
  if sel.usernameSelector = "" ∨ sel.passwordSelector = "" then none
  else some sel

/-!
Capture Controller (src/renderer/components/widget/WidgetWebview.tsx).
-/

def loginUrlPatterns : List String := ["login", "signin", "sign-in", "auth", "account"]

/-- Matching of the probe querySelector with input[type="password"]. -/
def isPasswordInput (e : ElemRec) : Bool :=
  decide (strLower e.tag = "input") && hasAttrVal e "type" "password"

def hasPasswordField (doc : Doc) : Bool :=
  doc.any isPasswordInput

/-- Occurrence of `pat` as a contiguous run inside `s` (structural, so
that concrete evaluation reduces in the kernel). -/
def hasSubList (pat : List Char) : List Char → Bool
  | [] => pat.isPrefixOf []
  | b :: bs => pat.isPrefixOf (b :: bs) || hasSubList pat bs

/-- String.prototype.includes on the lowercased URL. -/
def urlContains (url pat : String) : Bool :=
  hasSubList pat.data (strLower url).data

/-- Login-page classification of handleDomReady: a password-type input
exists in the document, or the lowercased current URL contains one of the
fixed login keywords. -/
def isOnLoginPage (doc : Doc) (currentUrl : String) : Bool :=
  hasPasswordField doc || loginUrlPatterns.any (fun p => urlContains currentUrl p)

/-- Observable effects of the CssSelection application step of
handleDomReady (after the settle delay): the inserted hide/reveal CSS (if
any), whether the ancestor-reveal script ran, the scroll target (if any),
whether the miss was logged, and the user-visible error (never set on this
path; errors come only from did-fail-load). -/
structure CssApplyResult where
  insertedCss : Option String
  ancestorsRevealed : Bool
  scrolledTo : Option Int
  warnedNotFound : Bool
  errorMessage : Option String
deriving Repr, DecidableEq

/-- The selector list of the injected hide/reveal rule
(selectors.map(s =&gt; s + ", " + s + " *").join(",\n")). -/
def hideCssSelectors (sels : List (List SSeg)) : String :=
  String.intercalate ",\n"
    (sels.map (fun s => renderChain s ++ ", " ++ renderChain s ++ " *"))

/-- CssSelection application: probe whether any stored selector resolves;
if none does, only log and leave the page unfiltered.  Otherwise insert
the hide/reveal CSS, reveal ancestors, and scroll so that the minimum
document top offset of the matched elements sits 10px below the viewport
top.  The document coordinate rect.top + scrollY of each element is
supplied by `topOf` (layout geometry is an input of the model). -/
def applyCssSelection (doc : Doc) (topOf : DomPath → Int)
    (sels : List (List SSeg)) : CssApplyResult :=
  if sels.any (fun s => (querySelectorFirst doc s).isSome) then
    let selected := sels.filterMap (fun s => querySelectorFirst doc s)
    match selected with
    | [] =>
      { insertedCss := some (hideCssSelectors sels), ancestorsRevealed := false,
        scrolledTo := none, warnedNotFound := false, errorMessage := none }
    | t :: ts =>
      let minTop := ((t :: ts).map topOf).foldl min (topOf t)
      { insertedCss := some (hideCssSelectors sels), ancestorsRevealed := true,
        scrolledTo := some (max 0 (minTop - 10)), warnedNotFound := false,
        errorMessage := none }
  else
    { insertedCss := none, ancestorsRevealed := false, scrolledTo := none,
      warnedNotFound := true, errorMessage := none }

/-!
Persistence handlers (IPC layer): widgets and credential groups, with the
fields the claims are about.  The SQLite tables are lists of rows; per-id
UPDATE statements are maps over the list (equivalent under unique-id
integrity, which the id-generation scheme provides).
-/

structure WidgetRow where
  id : String
  partition : String
  hasCredentials : Bool
  credentialGroupId : Option String
deriving Repr, DecidableEq

structure CredentialGroupRow where
  id : String
  partition : String
deriving Repr, DecidableEq

structure Db where
  widgets : List WidgetRow
  credentialGroups : List CredentialGroupRow
deriving Repr, DecidableEq

/-- credentialGroups:create assigns the group partition
"credential-group-" followed by the fresh group id. -/
def createCredentialGroup (db : Db) (gid : String) : Db :=
  { db with credentialGroups :=
      db.credentialGroups ++ [⟨gid, "credential-group-" ++ gid⟩] }

/-- The per-widget detach UPDATE of credentialGroups:delete. -/
def detachWidget (w : WidgetRow) : WidgetRow :=
  { w with credentialGroupId := none, hasCredentials := false,
           partition := "widget-" ++ w.id }

/-- credentialGroups:delete: every widget whose credential_group_id is the
deleted id is detached and reassigned its widget-private partition, then
the group row is deleted. -/
def deleteCredentialGroup (db : Db) (gid : String) : Db :=
  { widgets := db.widgets.map (fun w =>
      if w.credentialGroupId = some gid then detachWidget w else w),
    credentialGroups := db.credentialGroups.filter (fun g => decide (g.id ≠ gid)) }

structure CreateWidgetData where
  name : String := ""
  url : String := ""
  partition : Option String := none
  credentialGroupId : Option String := none
deriving Repr, DecidableEq

/-- JavaScript a || b for an optional string: the string when truthy
(present and non-empty), else the default. -/
def jsOrElse (o : Option String) (d : String) : String :=
  match o with
  | some s => if s = "" then d else s
  | none => d

/-- widgets:create: partition defaults to the supplied partition or the
fresh widget-private one; when a truthy credentialGroupId is supplied and
the group row exists, the group partition, has_credentials = 1 and the
group id are stored instead; a dangling group id leaves the defaults. -/
def createWidget (db : Db) (freshId : String) (data : CreateWidgetData) :
    Db × WidgetRow :=
  let basePartition := jsOrElse data.partition ("widget-" ++ freshId)
  let triple : String × Bool × Option String :=
    match data.credentialGroupId with
    | some g =>
      if g = "" then (basePartition, false, none)
      else
        match db.credentialGroups.find? (fun r => decide (r.id = g)) with
        | some grp => (grp.partition, true, some g)
        | none => (basePartition, false, none)
    | none => (basePartition, false, none)
  let row : WidgetRow := ⟨freshId, triple.1, triple.2.1, triple.2.2⟩
  ({ db with widgets := db.widgets ++ [row] }, row)

/-!
Helper lemmas shared by several claims.
-/

theorem strAppend_left_cancel (p a b : String) (h : p ++ a = p ++ b) : a = b := by
  have hd := congrArg String.data h
  rw [String.data_append, String.data_append] at hd
  exact String.ext (List.append_cancel_left hd)

theorem widget_ne_credGroup_partition (a s : String) :
    "widget-" ++ a ≠ "credential-group-" ++ s := by
  intro h
  have hd := congrArg String.data h
  rw [String.data_append, String.data_append] at hd
  have hw : ("widget-" : String).data = ['w', 'i', 'd', 'g', 'e', 't', '-'] := rfl
  have hc : ("credential-group-" : String).data =
      ['c', 'r', 'e', 'd', 'e', 'n', 't', 'i', 'a', 'l', '-', 'g', 'r', 'o', 'u', 'p', '-'] := rfl
  rw [hw, hc] at hd
  simpa using congrArg List.head? hd

theorem hasSubList_iff (pat s : List Char) : hasSubList pat s = true ↔ pat <:+: s := by
  induction s with
  | nil => simp [hasSubList, List.isPrefixOf_iff_prefix]
  | cons b bs ih => simp [hasSubList, List.isPrefixOf_iff_prefix, ih, List.infix_cons_iff]

theorem contiguousBadges_succ (n : Nat) :
    contiguousBadges (n + 1) = contiguousBadges n ++ [n + 1] := by
  simp [contiguousBadges, List.range_succ]

/-!
Claim C1.  The document: body > div > [span, p, p]; no element has an id
or a class.  The picked element is the second p (path [0, 2]).
-/

def c1Doc : Doc := [
  { path := [], tag := "BODY" },
  { path := [0], tag := "DIV" },
  { path := [0, 0], tag := "SPAN" },
  { path := [0, 1], tag := "P" },
  { path := [0, 2], tag := "P" } ]

def c1Chain : List SSeg := [SSeg.tagSel "div", SSeg.tagNth "p" 2]

/-- C1: the round-trip property fails on the code.  For the second p of
body > div > [span, p, p] (no ids, no classes anywhere, so the claim
hypotheses hold), generateSelector emits "div > p:nth-child(2)" — the
position 2 is the index among same-tag siblings — but CSS nth-child counts
all element children, so the selector resolves (uniquely) to the FIRST p,
which is the second child, not to the picked element.  The code
contradicts its own contract (a selector that resolves to exactly the
input element). -/
theorem c1_nthChild_roundTrip_fails :
    generateSelector c1Doc [0, 2] = "div > p:nth-child(2)" ∧
    renderChain c1Chain = "div > p:nth-child(2)" ∧
    querySelectorAll c1Doc c1Chain = [[0, 1]] ∧
    querySelectorFirst c1Doc c1Chain = some [0, 1] ∧
    (∀ e ∈ c1Doc, e.id = "" ∧ e.classes = []) ∧
    ([0, 1] : DomPath) ≠ [0, 2] := by decide

/-!
Claim C2.  The two preload scripts carry different generateSelector
functions: the credential picker one has extra name-attribute and
input-type strategies between the id and the class strategies.
-/

def c2Doc : Doc := [
  { path := [], tag := "BODY" },
  { path := [0], tag := "INPUT", attrs := [("name", "user")] } ]

/-- C2 counterexample: on an input with a name attribute and no id, the
credential picker generator returns the unique attribute selector
input[name="user"], while the Region Picker generator (the 4.1 algorithm)
returns the tag path "input"; the two functions are not extensionally
equal. -/
theorem c2_generators_differ :
    credGenerateSelector c2Doc [0] = "input[name=\"user\"]" ∧
    generateSelector c2Doc [0] = "input" ∧
    credGenerateSelector c2Doc [0] ≠ generateSelector c2Doc [0] := by decide

/-- C2 amended: the credential picker generator tries, in order, id, a
document-unique tag[name=...] selector, an input[type=...] selector for
INPUT elements, and then the 4.1 unique-class/path strategies; it agrees
with the Region Picker generator on every element that has no name
attribute and is not an INPUT element. -/
theorem c2_generators_agree_off_forms (doc : Doc) (p : DomPath) (e : ElemRec)
    (he : findElem doc p = some e)
    (hname : getAttr? e "name" = none) (htag : e.tag ≠ "INPUT") :
    credGenerateSelector doc p = generateSelector doc p := by
  unfold credGenerateSelector generateSelector
  rw [he]
  by_cases hid : e.id ≠ ""
  · simp [hid]
  · simp [hid, hname, credInputBranch, htag]

def c2wDoc : Doc := [
  { path := [], tag := "BODY" },
  { path := [0], tag := "DIV" } ]

/-- Witness for the amended C2 at a concrete element without a name
attribute and not an INPUT. -/
theorem c2_generators_agree_off_forms_witness :
    credGenerateSelector c2wDoc [0] = generateSelector c2wDoc [0] :=
  c2_generators_agree_off_forms c2wDoc [0] { path := [0], tag := "DIV" }
    (by decide) (by decide) (by decide)

/-- C3: a crop drag finalized with width &lt; 50 or height &lt; 50 emits no
Selection, discards the drawn rectangle, prompts the user to retry, and
leaves the picker in CropMode with the cropping flag cleared, so that a
new pointerdown immediately starts a new drag. -/
theorem c3_small_crop_rejected (s : RegionPickerState) (cx cy sx sy px py : Int)
    (hmode : s.mode = some PickMode.crop) (hcrop : s.isCropping = true)
    (hsmall : |cx - s.cropStartX| < 50 ∨ |cy - s.cropStartY| < 50) :
    (handleCropEnd s cx cy sx sy).2 = none ∧
    (handleCropEnd s cx cy sx sy).1.cropRect = none ∧
    (handleCropEnd s cx cy sx sy).1.statusText = "Selection too small. Try again." ∧
    (handleCropEnd s cx cy sx sy).1.mode = some PickMode.crop ∧
    (handleCropEnd s cx cy sx sy).1.isCropping = false ∧
    (handleCropStart (handleCropEnd s cx cy sx sy).1 px py).isCropping = true := by
  rcases hsmall with h | h <;>
    simp [handleCropEnd, handleCropStart, hmode, hcrop, h]

def c3State : RegionPickerState :=
  ⟨some PickMode.crop, true, 100, 100, some (100, 100, 0, 0), "", "https://example.com/"⟩

/-- Witness for C3: the zero-delta drag from (100, 100) to (100, 100). -/
theorem c3_small_crop_rejected_witness :
    (|(100 : Int) - c3State.cropStartX| < 50 ∨ |(100 : Int) - c3State.cropStartY| < 50) ∧
    ((handleCropEnd c3State 100 100 0 0).2 = none ∧
     (handleCropEnd c3State 100 100 0 0).1.cropRect = none ∧
     (handleCropEnd c3State 100 100 0 0).1.statusText = "Selection too small. Try again." ∧
     (handleCropEnd c3State 100 100 0 0).1.mode = some PickMode.crop ∧
     (handleCropEnd c3State 100 100 0 0).1.isCropping = false ∧
     (handleCropStart (handleCropEnd c3State 100 100 0 0).1 5 5).isCropping = true) :=
  ⟨by decide, c3_small_crop_rejected c3State 100 100 0 0 5 5 rfl rfl (by decide)⟩

/-- C4: a crop drag from anchor (cropStartX, cropStartY) released at
(cx, cy) that meets the 50px floor emits the CropSelection with
x = min, y = min, width and height the absolute deltas (any of the four
drag directions), and the scroll offsets passed at release time. -/
theorem c4_crop_geometry (s : RegionPickerState) (cx cy sx sy : Int)
    (hmode : s.mode = some PickMode.crop) (hcrop : s.isCropping = true)
    (hw : 50 ≤ |cx - s.cropStartX|) (hh : 50 ≤ |cy - s.cropStartY|) :
    (handleCropEnd s cx cy sx sy).2 =
      some ⟨s.pageUrl, SelectionData.cropSel
        ⟨min cx s.cropStartX, min cy s.cropStartY,
         |cx - s.cropStartX|, |cy - s.cropStartY|, sx, sy⟩⟩ := by
  have hnw : ¬ (|cx - s.cropStartX| < 50 ∨ |cy - s.cropStartY| < 50) :=
    not_or.mpr ⟨not_lt.mpr hw, not_lt.mpr hh⟩
  simp [handleCropEnd, hmode, hcrop, hnw]

def c4State : RegionPickerState :=
  ⟨some PickMode.crop, true, 50, 50, some (50, 50, 0, 0), "", "https://example.com/"⟩

/-- Witness for C4: dragging from (50, 50) to (250, 300) with scroll
(7, 9) yields CropSelection x 50, y 50, width 200, height 250,
scrollX 7, scrollY 9. -/
theorem c4_crop_geometry_witness :
    (50 : Int) ≤ |(250 : Int) - c4State.cropStartX| ∧
    (50 : Int) ≤ |(300 : Int) - c4State.cropStartY| ∧
    (handleCropEnd c4State 250 300 7 9).2 =
      some ⟨"https://example.com/", SelectionData.cropSel ⟨50, 50, 200, 250, 7, 9⟩⟩ :=
  ⟨by decide, by decide,
   (c4_crop_geometry c4State 250 300 7 9 rfl rfl (by decide) (by decide)).trans (by decide)⟩

/-- C5: in CssMode the badge overlays always carry the contiguous indices
1..n in selection order — the invariant is preserved by every toggle click
(both select and deselect) — and deselecting the element with badge 2 out
of three selected elements leaves the other two, in order, with badges 1
and 2. -/
theorem c5_badges_contiguous :
    (∀ (s : CssPickState) (t : Nat),
        s.badges = contiguousBadges s.selectedElements.length →
        (handleCssClick s t).badges =
          contiguousBadges (handleCssClick s t).selectedElements.length) ∧
    handleCssClick ⟨[10, 20, 30], [1, 2, 3]⟩ 20 = ⟨[10, 30], [1, 2]⟩ := by
  constructor
  · intro s t hinv
    have hblen : s.badges.length = s.selectedElements.length := by
      rw [hinv]; simp [contiguousBadges]
    unfold handleCssClick
    by_cases h : s.selectedElements.indexOf t < s.selectedElements.length
    · simp only [h, if_true]
      have : (s.badges.eraseIdx (s.selectedElements.indexOf t)).length =
          (s.selectedElements.eraseIdx (s.selectedElements.indexOf t)).length := by
        rw [List.length_eraseIdx, List.length_eraseIdx, hblen]
      simp [renumberBadges, contiguousBadges, this]
    · simp only [h, if_false]
      simp only [List.length_append, List.length_singleton]
      rw [contiguousBadges_succ, hinv]
  · decide

/-- Witness for C5: one select click on a fresh state keeps the badges
contiguous. -/
theorem c5_badges_contiguous_witness :
    (⟨[], []⟩ : CssPickState).badges =
      contiguousBadges (⟨[], []⟩ : CssPickState).selectedElements.length ∧
    (handleCssClick ⟨[], []⟩ 7).badges =
      contiguousBadges (handleCssClick ⟨[], []⟩ 7).selectedElements.length :=
  ⟨by decide, c5_badges_contiguous.1 ⟨[], []⟩ 7 (by decide)⟩

/-- C6: the Done action of the Credential Field Picker is enabled exactly
when both usernameSelector and passwordSelector are non-empty
(submitSelector not required); pressing Done then emits the
LoginFieldSelection unchanged — so a skipped Submit step leaves
submitSelector equal to the empty string in the emitted value — and with
either required field empty nothing is emitted.  The final conjunct runs
the session click-username, click-password, skip-submit, Done. -/
theorem c6_done_iff_required_fields :
    (∀ sel : CredentialSelection,
        credDoneVisible sel = true ↔
          (sel.usernameSelector ≠ "" ∧ sel.passwordSelector ≠ "")) ∧
    (∀ sel : CredentialSelection,
        sel.usernameSelector ≠ "" → sel.passwordSelector ≠ "" →
        credFinishSelection sel = some sel) ∧
    (∀ sel : CredentialSelection,
        sel.usernameSelector = "" ∨ sel.passwordSelector = "" →
        credFinishSelection sel = none) ∧
    (∀ s : CredPickerState, (credSkipStep s).selection = s.selection) ∧
    credFinishSelection
        (credSkipStep (credRecordClick (credRecordClick initialCredState "#user")
          "#pass")).selection =
      some ⟨"#user", "#pass", ""⟩ := by
  refine ⟨?_, ?_, ?_, fun s => rfl, by decide⟩
  · intro sel; simp [credDoneVisible]
  · intro sel h1 h2
    unfold credFinishSelection
    rw [if_neg (not_or.mpr ⟨h1, h2⟩)]
  · intro sel h
    unfold credFinishSelection
    rw [if_pos h]

/-- Witness for C6 at a concrete selection with both required fields set
and the submit field skipped. -/
theorem c6_done_iff_required_fields_witness :
    credDoneVisible ⟨"#user", "#pass", ""⟩ = true ∧
    credFinishSelection ⟨"#user", "#pass", ""⟩ = some ⟨"#user", "#pass", ""⟩ ∧
    credFinishSelection ⟨"", "#pass", "#go"⟩ = none :=
  ⟨(c6_done_iff_required_fields.1 ⟨"#user", "#pass", ""⟩).mpr ⟨by decide, by decide⟩,
   c6_done_iff_required_fields.2.1 ⟨"#user", "#pass", ""⟩ (by decide) (by decide),
   c6_done_iff_required_fields.2.2.1 ⟨"", "#pass", "#go"⟩ (Or.inl rfl)⟩

/-- C7: the Capture Controller classifies the page as a login page exactly
when the document contains an input element of type password, or the
lowercased current URL contains one of the five substrings login, signin,
sign-in, auth, account. -/
theorem c7_login_page_iff (doc : Doc) (url : String) :
    isOnLoginPage doc url = true ↔
      ((∃ e ∈ doc, strLower e.tag = "input" ∧ getAttr? e "type" = some "password") ∨
       (∃ p ∈ loginUrlPatterns, p.data <:+: (strLower url).data)) := by
  unfold isOnLoginPage hasPasswordField
  simp [List.any_eq_true, isPasswordInput, hasAttrVal, urlContains, hasSubList_iff]

/-- C8: when none of the stored CssSelection selectors resolves on the
loaded page, the application step is a logged no-op: no hide CSS is
inserted, no ancestor reveal runs, no scrolling is applied, and no
user-visible error is set. -/
theorem c8_css_miss_is_soft (doc : Doc) (topOf : DomPath → Int)
    (sels : List (List SSeg))
    (h : ∀ s ∈ sels, querySelectorFirst doc s = none) :
    applyCssSelection doc topOf sels =
      { insertedCss := none, ancestorsRevealed := false, scrolledTo := none,
        warnedNotFound := true, errorMessage := none } := by
  have hany : sels.any (fun s => (querySelectorFirst doc s).isSome) = false := by
    simp only [List.any_eq_false]
    intro s hs
    simp [h s hs]
  unfold applyCssSelection
  rw [hany]
  simp

def c8Doc : Doc := [
  { path := [], tag := "BODY" },
  { path := [0], tag := "DIV", classes := ["content"] } ]

/-- Witness for C8: a page without a nav element, probed with the stored
selectors "#main-nav" and "nav". -/
theorem c8_css_miss_is_soft_witness :
    (∀ s ∈ [[SSeg.idSel "main-nav"], [SSeg.tagSel "nav"]],
        querySelectorFirst c8Doc s = none) ∧
    applyCssSelection c8Doc (fun _ => 0)
        [[SSeg.idSel "main-nav"], [SSeg.tagSel "nav"]] =
      { insertedCss := none, ancestorsRevealed := false, scrolledTo := none,
        warnedNotFound := true, errorMessage := none } :=
  ⟨by decide,
   c8_css_miss_is_soft c8Doc (fun _ => 0)
     [[SSeg.idSel "main-nav"], [SSeg.tagSel "nav"]] (by decide)⟩

/-- C9: deleting a credential group detaches every widget that referenced
it — credentialGroupId cleared, hasCredentials cleared, partition reset to
the widget-private "widget-&lt;id&gt;" — with the fresh partitions pairwise
distinct (under widget-id uniqueness, a database invariant) and distinct
from the deleted group partition (which the group creator shaped as
"credential-group-..."), and the group row itself is removed. -/
theorem c9_delete_group_cascades (db : Db) (g : CredentialGroupRow) (gid : String)
    (hnodup : (db.widgets.map (fun w => w.id)).Nodup)
    (_hg : g ∈ db.credentialGroups) (_hgid : g.id = gid)
    (hpart : ∃ s, g.partition = "credential-group-" ++ s) :
    (∀ w ∈ db.widgets, w.credentialGroupId = some gid →
        detachWidget w ∈ (deleteCredentialGroup db gid).widgets ∧
        (detachWidget w).credentialGroupId = none ∧
        (detachWidget w).hasCredentials = false ∧
        (detachWidget w).partition = "widget-" ++ w.id ∧
        (detachWidget w).partition ≠ g.partition) ∧
    (∀ w1 ∈ db.widgets, ∀ w2 ∈ db.widgets,
        w1.credentialGroupId = some gid → w2.credentialGroupId = some gid →
        w1 ≠ w2 →
        (detachWidget w1).partition ≠ (detachWidget w2).partition) ∧
    (∀ h2 ∈ (deleteCredentialGroup db gid).credentialGroups, h2.id ≠ gid) := by
  refine ⟨?_, ?_, ?_⟩
  · intro w hw hwg
    refine ⟨?_, rfl, rfl, rfl, ?_⟩
    · have hfw : detachWidget w =
          (fun w => if w.credentialGroupId = some gid then detachWidget w else w) w := by
        simp [hwg]
      rw [hfw]
      exact List.mem_map_of_mem _ hw
    · obtain ⟨s, hs⟩ := hpart
      rw [hs]
      exact widget_ne_credGroup_partition w.id s
  · intro w1 hw1 w2 hw2 _ _ hne heq
    have hid : w1.id = w2.id :=
      strAppend_left_cancel "widget-" w1.id w2.id heq
    exact hne (List.inj_on_of_nodup_map hnodup hw1 hw2 hid)
  · intro h2 hh2
    have := (List.mem_filter.mp hh2).2
    simpa using this

def c9Db : Db :=
  ⟨[⟨"w1", "credential-group-g1", true, some "g1"⟩,
    ⟨"w2", "credential-group-g1", true, some "g1"⟩],
   [⟨"g1", "credential-group-g1"⟩]⟩

/-- Witness for C9 on a two-widget database sharing group g1. -/
theorem c9_delete_group_cascades_witness :
    (c9Db.widgets.map (fun w => w.id)).Nodup ∧
    ((∀ w ∈ c9Db.widgets, w.credentialGroupId = some "g1" →
        detachWidget w ∈ (deleteCredentialGroup c9Db "g1").widgets ∧
        (detachWidget w).credentialGroupId = none ∧
        (detachWidget w).hasCredentials = false ∧
        (detachWidget w).partition = "widget-" ++ w.id ∧
        (detachWidget w).partition ≠ "credential-group-g1") ∧
     (∀ w1 ∈ c9Db.widgets, ∀ w2 ∈ c9Db.widgets,
        w1.credentialGroupId = some "g1" → w2.credentialGroupId = some "g1" →
        w1 ≠ w2 →
        (detachWidget w1).partition ≠ (detachWidget w2).partition) ∧
     (∀ h2 ∈ (deleteCredentialGroup c9Db "g1").credentialGroups, h2.id ≠ "g1")) :=
  ⟨by decide,
   c9_delete_group_cascades c9Db ⟨"g1", "credential-group-g1"⟩ "g1"
     (by decide) (by decide) rfl ⟨"g1", rfl⟩⟩

/-!
Claim C10.  widgets:create with a dangling credentialGroupId.
-/

def c10Db : Db := ⟨[], []⟩

def c10DataEmptyPartition : CreateWidgetData :=
  { name := "n", url := "u", partition := some "", credentialGroupId := some "g9" }

/-- C10 counterexample: with a dangling group reference and a
caller-supplied partition that is the empty string, the stored partition
is the fresh widget-private one, not the caller-supplied partition — the
JavaScript || default also discards an empty caller partition. -/
theorem c10_empty_partition_not_used :
    c10DataEmptyPartition.partition = some "" ∧
    c10DataEmptyPartition.credentialGroupId = some "g9" ∧
    (∀ r ∈ c10Db.credentialGroups, r.id ≠ "g9") ∧
    (createWidget c10Db "w1" c10DataEmptyPartition).2.partition = "widget-w1" ∧
    (createWidget c10Db "w1" c10DataEmptyPartition).2.partition ≠ "" := by
  decide

/-- C10 amended: a widgets:create call whose credentialGroupId matches no
existing group succeeds and stores the widget as if no group had been
referenced: credentialGroupId null, hasCredentials false, and the
partition the caller supplied when it is a non-empty string, otherwise
(absent or empty) the fresh widget-private partition. -/
theorem c10_dangling_group_ignored (db : Db) (freshId : String)
    (data : CreateWidgetData) (g : String)
    (hgid : data.credentialGroupId = some g) (hgne : g ≠ "")
    (hdangling : ∀ r ∈ db.credentialGroups, r.id ≠ g) :
    (createWidget db freshId data).2 ∈ (createWidget db freshId data).1.widgets ∧
    (createWidget db freshId data).2.id = freshId ∧
    (createWidget db freshId data).2.credentialGroupId = none ∧
    (createWidget db freshId data).2.hasCredentials = false ∧
    (∀ p, data.partition = some p → p ≠ "" →
        (createWidget db freshId data).2.partition = p) ∧
    ((data.partition = none ∨ data.partition = some "") →
        (createWidget db freshId data).2.partition = "widget-" ++ freshId) := by
  have hfind : db.credentialGroups.find? (fun r => decide (r.id = g)) = none := by
    rw [List.find?_eq_none]
    intro r hr
    simpa using hdangling r hr
  refine ⟨?_, ?_, ?_, ?_, ?_, ?_⟩
  · simp [createWidget]
  · simp [createWidget]
  · simp [createWidget, hgid, hgne, hfind]
  · simp [createWidget, hgid, hgne, hfind]
  · intro p hp hpne
    simp [createWidget, hgid, hgne, hfind, jsOrElse, hp, hpne]
  · intro hp
    rcases hp with hp | hp <;>
      simp [createWidget, hgid, hgne, hfind, jsOrElse, hp]

def c10DataNamedPartition : CreateWidgetData :=
  { name := "n", url := "u", partition := some "mypart", credentialGroupId := some "g9" }

/-- Witness for the amended C10 at a concrete dangling reference with a
non-empty caller partition. -/
theorem c10_dangling_group_ignored_witness :
    (∀ r ∈ c10Db.credentialGroups, r.id ≠ "g9") ∧
    ((createWidget c10Db "w1" c10DataNamedPartition).2 ∈
        (createWidget c10Db "w1" c10DataNamedPartition).1.widgets ∧
     (createWidget c10Db "w1" c10DataNamedPartition).2.id = "w1" ∧
     (createWidget c10Db "w1" c10DataNamedPartition).2.credentialGroupId = none ∧
     (createWidget c10Db "w1" c10DataNamedPartition).2.hasCredentials = false ∧
     (∀ p, c10DataNamedPartition.partition = some p → p ≠ "" →
        (createWidget c10Db "w1" c10DataNamedPartition).2.partition = p) ∧
     ((c10DataNamedPartition.partition = none ∨
       c10DataNamedPartition.partition = some "") →
        (createWidget c10Db "w1" c10DataNamedPartition).2.partition = "widget-" ++ "w1")) :=
  ⟨by decide,
   c10_dangling_group_ignored c10Db "w1" c10DataNamedPartition "g9" rfl
     (by decide) (by decide)⟩

end MyDashboards
